import Mathlib

/-!
# Verification of the ORCA scheduler and storage core

Shallow embedding of the Go sources of the ORCA single-node orchestrator
(`pkg/scheduler/scheduler.go`, `pkg/storage/storage.go`, `pkg/container`,
`cmd/orchestrator/handlers.go`) together with proofs of the specified
properties.

Modelling conventions:
* Go maps `map[string]string` are modelled as association lists
  `List (String × String)`; iteration order of Go maps is unspecified, the
  list order stands in for one arbitrary iteration order.  Wherever the
  source distinguishes a `nil` map or slice from an empty one (the
  scheduler's `containerSpec.Ports != nil` test, `encoding/json`'s
  `omitempty` on the `Ports`/`Environment`/`Labels` maps and the
  `Command`/`Args`/`Volumes` slices) the field is modelled as
  `Option (List _)`, `none` being Go `nil`.  `Deployment.Replicas` carries no
  `omitempty` and round-trips a nil slice through JSON `null`, so its
  nil-ness is unobservable and it is a plain list.
* Go `int` is modelled as `Int`; none of the verified properties involves
  64-bit overflow.
* `time.Time` values are abstracted to `Nat` instants; identifier generation
  (`generateID`, wall-clock based) is abstracted to an explicit parameter.
* The Docker runtime is an oracle (`DockerClient`): each call's outcome is a
  function of its argument.  `container.Manager` (`pkg/container/manager.go`)
  is embedded on top of it.  The calls a scheduler operation issues are
  returned as an explicit trace (`List RtCall`).
* Errors built with `fmt.Errorf` are modelled as structured error values,
  one constructor per distinct `Errorf` site, so the error kind an operation
  returns is observable.
-/

namespace Orca

/-- A JSON document, the image of `encoding/json` marshalling. -/
inductive Json where
  | null
  | bool (b : Bool)
  | num (n : Int)
  | str (s : String)
  | arr (elems : List Json)
  | obj (fields : List (String × Json))

/-! ## Integer parsing helpers from the Go sources -/

/-- Digits of a decimal literal folded to a `Nat`. -/
def digitsToNat (ds : List Char) : Nat :=
  ds.foldl (fun acc c => acc * 10 + (c.toNat - 48)) 0

/-- `fmt.Sscanf(s, "%d", &result)` : skip leading horizontal space, accept an
optional sign, then a nonempty run of decimal digits; anything after the
digits is ignored.  `none` when no integer can be scanned. -/
def sscanfInt (s : String) : Option Int :=
  let cs := s.data.dropWhile (fun c => c == ' ' || c == '\t' || c == '\r')
  let signed : Bool × List Char :=
    match cs with
    | '-' :: r => (true, r)
    | '+' :: r => (false, r)
    | _ => (false, cs)
  let ds := signed.2.takeWhile Char.isDigit
  if ds.isEmpty then none
  else some (if signed.1 then -(digitsToNat ds : Int) else (digitsToNat ds : Int))

/-- `mustParseInt` (scheduler.go): despite its comment ("panics on error") it
ignores the `Sscanf` error, so an unscannable string yields the zero value. -/
def mustParseInt (s : String) : Int :=
  (sscanfInt s).getD 0

/-- `strconv.Atoi` on a character list: optional sign then a nonempty,
all-digit remainder. -/
def atoiChars? (cs0 : List Char) : Option Int :=
  let signed : Bool × List Char :=
    match cs0 with
    | '-' :: r => (true, r)
    | '+' :: r => (false, r)
    | cs => (false, cs)
  if signed.2.isEmpty || signed.2.any (fun c => !c.isDigit) then none
  else some (if signed.1 then -(digitsToNat signed.2 : Int) else (digitsToNat signed.2 : Int))

/-- `strconv.Atoi`. -/
def atoi? (s : String) : Option Int :=
  atoiChars? s.data

/-- `strings.Split` on a single separator character. -/
def splitChar (sep : Char) : List Char → List (List Char)
  | [] => [[]]
  | c :: rest =>
    let r := splitChar sep rest
    if c == sep then [] :: r
    else
      match r with
      | [] => [[c]]
      | g :: gs => (c :: g) :: gs

/-- Decidable equality for `Except`, used only to evaluate witnesses. -/
instance exceptDecEq {ε α : Type} [DecidableEq ε] [DecidableEq α] :
    DecidableEq (Except ε α) := fun a b =>
  match a, b with
  | .ok x, .ok y =>
      if h : x = y then .isTrue (by rw [h]) else .isFalse (by intro hc; cases hc; exact h rfl)
  | .error x, .error y =>
      if h : x = y then .isTrue (by rw [h]) else .isFalse (by intro hc; cases hc; exact h rfl)
  | .ok _, .error _ => .isFalse (by intro hc; cases hc)
  | .error _, .ok _ => .isFalse (by intro hc; cases hc)

/-! ## Data model (`pkg/container/types.go`, scheduler.go) -/

/-- `container.VolumeMount`. -/
structure VolumeMount where
  source : String
  destination : String
  readOnly : Bool
deriving DecidableEq

/-- `container.ContainerSpec`.  Every `omitempty` map/slice field is an
`Option` list, `none` being Go `nil`. -/
structure ContainerSpec where
  name : String
  image : String
  /-- container-port → host-port; `none` is a Go `nil` map. -/
  ports : Option (List (String × String))
  environment : Option (List (String × String))
  labels : Option (List (String × String))
  command : Option (List String)
  args : Option (List String)
  workingDir : String
  volumes : Option (List VolumeMount)
deriving DecidableEq

/-- `container.Container`, the replica handle returned by the runtime. -/
structure Container where
  id : String
  name : String
  image : String
  status : String
  ports : Option (List (String × String))
  environment : Option (List (String × String))
  labels : Option (List (String × String))
  created : Nat
  started : Option Nat
deriving DecidableEq

/-- `container.DeploymentSpec`. -/
structure DeploymentSpec where
  name : String
  replicas : Int
  container : ContainerSpec
  strategy : String
deriving DecidableEq

/-- `container.ServicePort` (`Port` is the external port). -/
structure ServicePort where
  port : Int
  targetPort : Int
deriving DecidableEq

/-- `container.ServiceSpec`. -/
structure ServiceSpec where
  name : String
  type : String
  selector : List (String × String)
  ports : List ServicePort
deriving DecidableEq

/-- `scheduler.Deployment`. -/
structure Deployment where
  id : String
  name : String
  spec : DeploymentSpec
  status : String
  replicas : List Container
  created : Nat
deriving DecidableEq

/-- `scheduler.Service`. -/
structure Service where
  id : String
  name : String
  spec : ServiceSpec
  endpoints : List String
  status : String
  created : Nat
deriving DecidableEq

/-- The scheduler's in-memory registry: the two ID-keyed maps, as
association lists with (invariantly) distinct keys. -/
structure SchedState where
  deployments : List (String × Deployment)
  services : List (String × Service)
deriving DecidableEq

/-! ## The container runtime (`pkg/container/manager.go`) -/

/-- Oracle for the Docker daemon's responses: `ContainerCreate` yields a fresh
container ID or an error, the other calls succeed or fail per argument. -/
structure DockerClient where
  createId : ContainerSpec → Except String String
  startResult : String → Except String Unit
  stopResult : String → Except String Unit
  removeResult : String → Except String Unit

/-- The capability interface the scheduler consumes (`Manager`'s methods). -/
structure Runtime where
  create : ContainerSpec → Except String Container
  start : String → Except String Unit
  stop : String → Except String Unit
  remove : String → Except String Unit

/-- `nat.NewPort` validity of one container-port key: an optional `/proto`
suffix behind a decimal port number in `[0, 65535]`. -/
def validPortKey (containerPort : String) : Bool :=
  let portStr :=
    match splitChar '/' containerPort.data with
    | [p, _] => p
    | _ => containerPort.data
  match atoiChars? portStr with
  | some n => decide (0 ≤ n) && decide (n ≤ 65535)
  | none => false

/-- `Manager.Create`: builds the port bindings (failing on an invalid
container-port key), then asks the daemon for a container; on success the
returned handle echoes the spec's name, image and ports, with status
`"created"`. -/
def managerCreate (cli : DockerClient) (now : Nat) (spec : ContainerSpec) :
    Except String Container :=
  if (spec.ports.getD []).all (fun p => validPortKey p.1) then
    match cli.createId spec with
    | .error e => .error ("docker container olusturulamadi: " ++ e)
    | .ok respId =>
        .ok { id := respId, name := spec.name, image := spec.image,
              status := "created", ports := spec.ports,
              environment := spec.environment, labels := spec.labels,
              created := now, started := none }
  else .error "gecersiz port"

/-- `Manager` as a `Runtime` over the Docker oracle. -/
def managerRuntime (cli : DockerClient) (now : Nat) : Runtime where
  create := managerCreate cli now
  start id := cli.startResult id
  stop id := cli.stopResult id
  remove id := cli.removeResult id

/-! ## The scheduler (`pkg/scheduler/scheduler.go`) -/

/-- One runtime call issued by a scheduler operation. -/
inductive RtCall where
  | create (spec : ContainerSpec)
  | start (id : String)
  | stop (id : String)
  | remove (id : String)
deriving DecidableEq

/-- A `stop` or `remove` call. -/
def RtCall.isStopOrRemove : RtCall → Bool
  | .stop _ => true
  | .remove _ => true
  | _ => false

/-- Errors of `CreateDeployment`, one per `fmt.Errorf` site. -/
inductive CreateErr where
  /-- "deployment zaten mevcut" -/
  | alreadyExists (name : String)
  /-- "container olusturulamadi (replica i)" -/
  | createFailed (i : Nat) (e : String)
  /-- "container baslatilamadi (replica i)" -/
  | startFailed (i : Nat) (e : String)
deriving DecidableEq

/-- Errors of `DeleteDeployment`. -/
inductive DeleteErr where
  /-- "deployment bulunamadi" -/
  | notFound (name : String)
deriving DecidableEq

/-- Errors of `CreateService`, one per `fmt.Errorf` site of `CreateService`
and `validatePortConflicts`. -/
inductive ServiceErr where
  /-- "service zaten mevcut" -/
  | alreadyExists (name : String)
  /-- "gecersiz port numarasi" -/
  | invalidPort (p : Int)
  /-- "gecersiz hedef port numarasi" -/
  | invalidTargetPort (p : Int)
  /-- "port p zaten kullanimda (ayni service icinde)" -/
  | selfConflict (p : Int)
  /-- "port p zaten service s tarafindan kullaniliyor" -/
  | crossService (p : Int) (svcName : String)
  /-- "port p zaten deployment d (container port cp) tarafindan kullaniliyor" -/
  | crossDeployment (p : Int) (depName : String) (containerPort : String)
deriving DecidableEq

/-- The name-collision scan of `CreateDeployment` (`for _, d := range s.deployments`). -/
def nameExistsD (st : SchedState) (name : String) : Bool :=
  st.deployments.any (fun p => p.2.name == name)

/-- The name-collision scan of `CreateService`. -/
def nameExistsS (st : SchedState) (name : String) : Bool :=
  st.services.any (fun p => p.2.name == name)

/-- The per-replica container spec derived in `CreateDeployment`'s loop body:
name `"{spec.Name}-{i}"` and, when the template declares ports, each base
host port replaced by `Sprintf("%d", mustParseInt(base)+i)`. -/
def replicaContainerSpec (spec : DeploymentSpec) (i : Nat) : ContainerSpec :=
  let cs := { spec.container with name := spec.name ++ "-" ++ toString i }
  match cs.ports with
  | none => cs
  | some ps =>
      { cs with ports := some (ps.map (fun pb => (pb.1, toString (mustParseInt pb.2 + (i : Int))))) }

/-- The replica-creation loop (`for i := 0; i < spec.Replicas; i++`), started
at index `i` with `fuel` iterations left.  On success it returns the replicas
created (status set to `"running"` before the append, as in the source); on
failure, the error together with the replicas successfully appended before it
(the list `cleanupDeployment` will walk).  The second component is the trace
of runtime calls issued. -/
def createReplicasFrom (rt : Runtime) (spec : DeploymentSpec) (i : Nat) :
    (fuel : Nat) → Except (CreateErr × List Container) (List Container) × List RtCall
  | 0 => (.ok [], [])
  | fuel + 1 =>
    let cs := replicaContainerSpec spec i
    match rt.create cs with
    | .error e => (.error (.createFailed i e, []), [.create cs])
    | .ok c =>
      match rt.start c.id with
      | .error e => (.error (.startFailed i e, []), [.create cs, .start c.id])
      | .ok _ =>
        let c' := { c with status := "running" }
        match createReplicasFrom rt spec (i + 1) fuel with
        | (.ok rest, calls) => (.ok (c' :: rest), .create cs :: .start c.id :: calls)
        | (.error (e, made), calls) =>
            (.error (e, c' :: made), .create cs :: .start c.id :: calls)

/-- `cleanupDeployment`: for every replica, `Stop` then `Remove`; each
result is only logged, never propagated (the function always returns `nil`),
so only the calls themselves are observable. -/
def cleanupCalls (replicas : List Container) : List RtCall :=
  replicas.flatMap (fun c => [.stop c.id, .remove c.id])

/-- `CreateDeployment`.  `newId` abstracts `generateID()` and `now` the
`time.Now()` reading.  Returns the result, the registry after the call and
the trace of runtime calls issued (cleanup calls included). -/
def createDeployment (st : SchedState) (rt : Runtime) (newId : String) (now : Nat)
    (spec : DeploymentSpec) : Except CreateErr Deployment × SchedState × List RtCall :=
  if nameExistsD st spec.name then
    (.error (.alreadyExists spec.name), st, [])
  else
    match createReplicasFrom rt spec 0 spec.replicas.toNat with
    | (.error (e, made), calls) =>
        (.error e, st, calls ++ cleanupCalls made)
    | (.ok reps, calls) =>
        let d : Deployment :=
          { id := newId, name := spec.name, spec := spec, status := "running",
            replicas := reps, created := now }
        (.ok d, { st with deployments := st.deployments ++ [(newId, d)] }, calls)

/-- The name lookup of `GetDeployment` / `DeleteDeployment`. -/
def findDeployment (st : SchedState) (name : String) : Option (String × Deployment) :=
  st.deployments.find? (fun p => p.2.name == name)

/-- `DeleteDeployment`: locate by name, run `cleanupDeployment` — whose
per-call results from `rt` are only logged, never inspected, and whose own
result is always `nil` — then drop the registry entry.  The outcome is thus
the same for every runtime `rt`. -/
def deleteDeployment (st : SchedState) (rt : Runtime) (name : String) :
    Except DeleteErr Unit × SchedState × List RtCall :=
  match findDeployment st name with
  | none => (.error (.notFound name), st, [])
  | some (id, d) =>
      (.ok (),
       { st with deployments := st.deployments.filter (fun p => p.1 ≠ id) },
       cleanupCalls d.replicas)

/-- First loop of `validatePortConflicts`: for each port mapping in order,
check the external port range, the target port range, then membership in the
`usedPorts` set accumulated from the earlier mappings. -/
def checkPortRangesAndSelf : List ServicePort → List Int → Option ServiceErr
  | [], _ => none
  | p :: rest, used =>
    if p.port ≤ 0 || p.port > 65535 then some (.invalidPort p.port)
    else if p.targetPort ≤ 0 || p.targetPort > 65535 then some (.invalidTargetPort p.targetPort)
    else if used.contains p.port then some (.selfConflict p.port)
    else checkPortRangesAndSelf rest (p.port :: used)

/-- Second loop: every existing service's every port against every new port. -/
def checkServiceConflicts (svcs : List (String × Service)) (ports : List ServicePort) :
    Option ServiceErr :=
  svcs.findSome? (fun sv =>
    sv.2.spec.ports.findSome? (fun ep =>
      ports.findSome? (fun np =>
        if ep.port == np.port then some (.crossService np.port sv.2.name) else none)))

/-- Third loop: every registered deployment — skipped entirely when its
spec's container ports map is `nil` — then every replica, then every
container-port/host-port pair; a host-port string `strconv.Atoi` rejects is
skipped. -/
def checkDeploymentConflicts (deps : List (String × Deployment)) (ports : List ServicePort) :
    Option ServiceErr :=
  deps.findSome? (fun dp =>
    match dp.2.spec.container.ports with
    | none => none
    | some _ =>
      dp.2.replicas.findSome? (fun rep =>
        (rep.ports.getD []).findSome? (fun cp =>
          match atoi? cp.2 with
          | none => none
          | some hostPort =>
            ports.findSome? (fun np =>
              if hostPort == np.port then
                some (.crossDeployment np.port dp.2.name cp.1)
              else none))))

/-- `validatePortConflicts`: the three loops in sequence. -/
def validatePortConflicts (st : SchedState) (ports : List ServicePort) : Option ServiceErr :=
  match checkPortRangesAndSelf ports [] with
  | some e => some e
  | none =>
    match checkServiceConflicts st.services ports with
    | some e => some e
    | none => checkDeploymentConflicts st.deployments ports

/-- `CreateService`: duplicate-name scan, then `validatePortConflicts`, then
registration with `Endpoints = []` and status `"active"`. -/
def createService (st : SchedState) (newId : String) (now : Nat) (spec : ServiceSpec) :
    Except ServiceErr Service × SchedState :=
  if nameExistsS st spec.name then
    (.error (.alreadyExists spec.name), st)
  else
    match validatePortConflicts st spec.ports with
    | some e => (.error e, st)
    | none =>
      let svc : Service :=
        { id := newId, name := spec.name, spec := spec, endpoints := [],
          status := "active", created := now }
      (.ok svc, { st with services := st.services ++ [(newId, svc)] })

/-! ## Transport-layer validation (`cmd/orchestrator/handlers.go`) -/

/-- The input validation of `createDeploymentHandler`, in source order;
`some msg` is the HTTP 400 message. -/
def handlerValidateDeployment (spec : DeploymentSpec) : Option String :=
  if spec.name == "" then some "Deployment adi bos olamaz"
  else if spec.replicas < 1 then some "Replica sayisi en az 1 olmalidir"
  else if spec.replicas > 100 then some "Replica sayisi en fazla 100 olabilir"
  else if spec.container.name == "" then some "Container adi bos olamaz"
  else if spec.container.image == "" then some "Container image bos olamaz"
  else none

/-- The input validation of `createServiceHandler`, in source order. -/
def handlerValidateService (spec : ServiceSpec) : Option String :=
  if spec.name == "" then some "Service adi bos olamaz"
  else if spec.type == "" then some "Service tipi belirtilmelidir"
  else if spec.type != "ClusterIP" && spec.type != "NodePort" && spec.type != "LoadBalancer" then
    some "Gecersiz service tipi"
  else if spec.ports.isEmpty then some "En az bir port tanimlanmalidir"
  else
    spec.ports.findSome? (fun p =>
      if p.port < 1 || p.port > 65535 then some "Port numarasi 1-65535 arasinda olmalidir"
      else if p.targetPort < 1 || p.targetPort > 65535 then
        some "Hedef port numarasi 1-65535 arasinda olmalidir"
      else none)

/-! ## Marshalling (`encoding/json` over the tagged structs)

`json.Marshal` / `json.Unmarshal` specialised to the document types, field
tag by field tag.  `omitempty` drops a field whose value is empty (empty
map/slice/string, `false`, `nil` pointer); `Unmarshal` leaves the zero value
for a missing field or a JSON `null` and fails on a type mismatch. -/

/-- A string-to-string map as a JSON object. -/
def encPairs (ps : List (String × String)) : Json :=
  .obj (ps.map (fun p => (p.1, .str p.2)))

/-- A string slice as a JSON array. -/
def encStrList (xs : List String) : Json :=
  .arr (xs.map .str)

/-- An `omitempty` field: kept only when `b` holds. -/
def optJ (b : Bool) (k : String) (v : Json) : List (String × Json) :=
  if b then [(k, v)] else []

/-- Whether an `omitempty` map/slice field is kept: present and nonempty
(`Marshal` drops both a `nil` and an empty-but-present collection). -/
def keptList {α : Type} : Option (List α) → Bool
  | some (_ :: _) => true
  | _ => false

/-- Marshal `VolumeMount` (tags `source`, `destination`, `read_only,omitempty`). -/
def encodeVolumeMount (v : VolumeMount) : Json :=
  .obj ([("source", .str v.source), ("destination", .str v.destination)]
    ++ optJ v.readOnly "read_only" (.bool v.readOnly))

/-- Marshal `ContainerSpec`. -/
def encodeContainerSpec (cs : ContainerSpec) : Json :=
  .obj ([("name", .str cs.name), ("image", .str cs.image)]
    ++ optJ (keptList cs.ports) "ports" (encPairs (cs.ports.getD []))
    ++ optJ (keptList cs.environment) "environment" (encPairs (cs.environment.getD []))
    ++ optJ (keptList cs.labels) "labels" (encPairs (cs.labels.getD []))
    ++ optJ (keptList cs.command) "command" (encStrList (cs.command.getD []))
    ++ optJ (keptList cs.args) "args" (encStrList (cs.args.getD []))
    ++ optJ (cs.workingDir != "") "working_dir" (.str cs.workingDir)
    ++ optJ (keptList cs.volumes) "volumes"
        (.arr ((cs.volumes.getD []).map encodeVolumeMount)))

/-- Marshal `Container`. -/
def encodeContainer (c : Container) : Json :=
  .obj ([("id", .str c.id), ("name", .str c.name), ("image", .str c.image),
         ("status", .str c.status)]
    ++ optJ (keptList c.ports) "ports" (encPairs (c.ports.getD []))
    ++ optJ (keptList c.environment) "environment" (encPairs (c.environment.getD []))
    ++ optJ (keptList c.labels) "labels" (encPairs (c.labels.getD []))
    ++ [("created", .num c.created)]
    ++ optJ c.started.isSome "started" (.num (c.started.getD 0)))

/-- Marshal `DeploymentSpec` (tag `strategy,omitempty`). -/
def encodeDeploymentSpec (ds : DeploymentSpec) : Json :=
  .obj ([("name", .str ds.name), ("replicas", .num ds.replicas),
         ("container", encodeContainerSpec ds.container)]
    ++ optJ (ds.strategy != "") "strategy" (.str ds.strategy))

/-- Marshal `scheduler.Deployment` (no `omitempty` at the top level). -/
def encodeDeployment (d : Deployment) : Json :=
  .obj [("id", .str d.id), ("name", .str d.name),
        ("spec", encodeDeploymentSpec d.spec), ("status", .str d.status),
        ("replicas", .arr (d.replicas.map encodeContainer)),
        ("created", .num d.created)]

/-- Field lookup in a decoded JSON object. -/
def jGet (fields : List (String × Json)) (k : String) : Option Json :=
  (fields.find? (fun f => f.1 == k)).map (fun f => f.2)

/-- Unmarshal a string field value: missing or `null` leaves the zero value. -/
def decStrV : Option Json → Option String
  | none => some ""
  | some .null => some ""
  | some (.str s) => some s
  | some _ => none

/-- Unmarshal an `Int` field value. -/
def decIntV : Option Json → Option Int
  | none => some 0
  | some .null => some 0
  | some (.num n) => some n
  | some _ => none

/-- Unmarshal a `Nat` (time) field value. -/
def decNatV : Option Json → Option Nat
  | none => some 0
  | some .null => some 0
  | some (.num n) => if 0 ≤ n then some n.toNat else none
  | some _ => none

/-- Unmarshal a `bool,omitempty` field value. -/
def decBoolV : Option Json → Option Bool
  | none => some false
  | some .null => some false
  | some (.bool b) => some b
  | some _ => none

/-- Unmarshal a nilable-time (`*time.Time,omitempty`) field value. -/
def decStartedV : Option Json → Option (Option Nat)
  | none => some none
  | some .null => some none
  | some (.num n) => if 0 ≤ n then some (some n.toNat) else none
  | some _ => none

/-- Unmarshal a JSON object of strings. -/
def decPairs (j : Json) : Option (List (String × String)) :=
  match j with
  | .obj kvs => kvs.mapM (fun kv =>
      match kv.2 with
      | .str s => some (kv.1, s)
      | _ => none)
  | _ => none

/-- Unmarshal a nilable map field value (`ports`): missing or `null` is the
`nil` map, an object a present one. -/
def decOptMapV : Option Json → Option (Option (List (String × String)))
  | none => some none
  | some .null => some none
  | some j => (decPairs j).map some

/-- Unmarshal a nilable string-slice field value: missing or `null` is the
`nil` slice, an array a present one. -/
def decOptStrListV : Option Json → Option (Option (List String))
  | none => some none
  | some .null => some none
  | some (.arr xs) =>
      (xs.mapM (fun x => match x with | Json.str s => some s | _ => none)).map some
  | some _ => none

/-- Unmarshal `VolumeMount`. -/
def decodeVolumeMount (j : Json) : Option VolumeMount :=
  match j with
  | .obj fs => do
      let source ← decStrV (jGet fs "source")
      let destination ← decStrV (jGet fs "destination")
      let readOnly ← decBoolV (jGet fs "read_only")
      pure { source := source, destination := destination, readOnly := readOnly }
  | _ => none

/-- Unmarshal a nilable `[]VolumeMount,omitempty` field value. -/
def decOptVolumesV : Option Json → Option (Option (List VolumeMount))
  | none => some none
  | some .null => some none
  | some (.arr xs) => (xs.mapM decodeVolumeMount).map some
  | some _ => none

/-- Unmarshal `ContainerSpec`. -/
def decodeContainerSpec (j : Json) : Option ContainerSpec :=
  match j with
  | .obj fs => do
      let name ← decStrV (jGet fs "name")
      let image ← decStrV (jGet fs "image")
      let ports ← decOptMapV (jGet fs "ports")
      let environment ← decOptMapV (jGet fs "environment")
      let labels ← decOptMapV (jGet fs "labels")
      let command ← decOptStrListV (jGet fs "command")
      let args ← decOptStrListV (jGet fs "args")
      let workingDir ← decStrV (jGet fs "working_dir")
      let volumes ← decOptVolumesV (jGet fs "volumes")
      pure { name := name, image := image, ports := ports, environment := environment,
             labels := labels, command := command, args := args,
             workingDir := workingDir, volumes := volumes }
  | _ => none

/-- Unmarshal `Container`. -/
def decodeContainer (j : Json) : Option Container :=
  match j with
  | .obj fs => do
      let id ← decStrV (jGet fs "id")
      let name ← decStrV (jGet fs "name")
      let image ← decStrV (jGet fs "image")
      let status ← decStrV (jGet fs "status")
      let ports ← decOptMapV (jGet fs "ports")
      let environment ← decOptMapV (jGet fs "environment")
      let labels ← decOptMapV (jGet fs "labels")
      let created ← decNatV (jGet fs "created")
      let started ← decStartedV (jGet fs "started")
      pure { id := id, name := name, image := image, status := status, ports := ports,
             environment := environment, labels := labels, created := created,
             started := started }
  | _ => none

/-- Unmarshal a nested struct field value: missing or `null` decodes the
zero struct, as `Unmarshal` leaves it. -/
def decStructV {α : Type} (dec : Json → Option α) : Option Json → Option α
  | none => dec (.obj [])
  | some .null => dec (.obj [])
  | some j => dec j

/-- Unmarshal `DeploymentSpec`. -/
def decodeDeploymentSpec (j : Json) : Option DeploymentSpec :=
  match j with
  | .obj fs => do
      let name ← decStrV (jGet fs "name")
      let replicas ← decIntV (jGet fs "replicas")
      let cont ← decStructV decodeContainerSpec (jGet fs "container")
      let strategy ← decStrV (jGet fs "strategy")
      pure { name := name, replicas := replicas, container := cont, strategy := strategy }
  | _ => none

/-- Unmarshal a `[]*Container` field value. -/
def decReplicasV : Option Json → Option (List Container)
  | none => some []
  | some .null => some []
  | some (.arr xs) => xs.mapM decodeContainer
  | some _ => none

/-- Unmarshal `scheduler.Deployment`. -/
def decodeDeployment (j : Json) : Option Deployment :=
  match j with
  | .obj fs => do
      let id ← decStrV (jGet fs "id")
      let name ← decStrV (jGet fs "name")
      let spec ← decStructV decodeDeploymentSpec (jGet fs "spec")
      let status ← decStrV (jGet fs "status")
      let replicas ← decReplicasV (jGet fs "replicas")
      let created ← decNatV (jGet fs "created")
      pure { id := id, name := name, spec := spec, status := status,
             replicas := replicas, created := created }
  | _ => none

/-! ## The durable store (`pkg/storage/storage.go`) -/

/-- A file of the `deployments` data directory: unreadable
(`ioutil.ReadFile` fails), syntactically invalid JSON, or a JSON document
(which `json.Unmarshal` may still reject at the type level). -/
inductive FileContent where
  | unreadable
  | badSyntax
  | json (j : Json)

/-- The `deployments` subdirectory: file name → content. -/
structure DepDir where
  files : List (String × FileContent)

/-- The file name `SaveDeployment`/`LoadDeployment` use: `"{id}.json"`. -/
def depFileName (id : String) : String := id ++ ".json"

/-- `filepath.Ext(name) == ".json"`: the name's final-dot suffix is `.json`,
equivalently the name ends in `".json"`. -/
def hasJsonExt (name : String) : Bool :=
  ".json".data.isSuffixOf name.data

/-- `SaveDeployment`: marshal and overwrite the per-ID file. -/
def saveDeployment (dir : DepDir) (d : Deployment) : DepDir :=
  { files := dir.files.filter (fun f => f.1 ≠ depFileName d.id)
      ++ [(depFileName d.id, .json (encodeDeployment d))] }

/-- Errors of the deployment load path. -/
inductive LoadErr where
  /-- "deployment bulunamadi" / "deployment okunamadi" -/
  | readFailed (id : String)
  /-- "deployment parse edilemedi" -/
  | parseFailed (id : String)
  /-- "deployments dizini okunamadi" -/
  | dirUnreadable
deriving DecidableEq

/-- `LoadDeployment`: read `"{id}.json"` and unmarshal it. -/
def loadDeployment (dir : DepDir) (id : String) : Except LoadErr Deployment :=
  match dir.files.find? (fun f => f.1 == depFileName id) with
  | none => .error (.readFailed id)
  | some (_, .unreadable) => .error (.readFailed id)
  | some (_, .badSyntax) => .error (.parseFailed id)
  | some (_, .json j) =>
      match decodeDeployment j with
      | none => .error (.parseFailed id)
      | some d => .ok d

/-- The per-file loop of `LoadAllDeployments`: skip non-`.json` names, warn
and continue on a read or unmarshal failure, collect the rest in file order.
Returns the documents and the number of warnings emitted. -/
def loadAllFiles : List (String × FileContent) → List Deployment × Nat
  | [] => ([], 0)
  | f :: rest =>
    let r := loadAllFiles rest
    if hasJsonExt f.1 then
      match f.2 with
      | .unreadable => (r.1, r.2 + 1)
      | .badSyntax => (r.1, r.2 + 1)
      | .json j =>
          match decodeDeployment j with
          | none => (r.1, r.2 + 1)
          | some d => (d :: r.1, r.2)
    else r

/-- `LoadAllDeployments`: only the directory listing itself can fail
(`none` models an unreadable directory); every per-file failure is recovered. -/
def loadAllDeployments (dir : Option (List (String × FileContent))) :
    Except LoadErr (List Deployment × Nat) :=
  match dir with
  | none => .error .dirUnreadable
  | some files => .ok (loadAllFiles files)

/-! ## Basic lemmas about the registry scans -/

lemma nameExistsD_iff (st : SchedState) (n : String) :
    nameExistsD st n = true ↔ ∃ p ∈ st.deployments, p.2.name = n := by
  simp [nameExistsD, List.any_eq_true]

lemma nameExistsS_iff (st : SchedState) (n : String) :
    nameExistsS st n = true ↔ ∃ p ∈ st.services, p.2.name = n := by
  simp [nameExistsS, List.any_eq_true]

/-! ## Lemmas about the replica-creation loop -/

lemma replicaContainerSpec_name (spec : DeploymentSpec) (i : Nat) :
    (replicaContainerSpec spec i).name = spec.name ++ "-" ++ toString i := by
  cases h : spec.container.ports <;> simp [replicaContainerSpec, h]

lemma replicaContainerSpec_ports (spec : DeploymentSpec) (i : Nat) :
    (replicaContainerSpec spec i).ports =
      spec.container.ports.map
        (fun ps => ps.map (fun pb => (pb.1, toString (mustParseInt pb.2 + (i : Int))))) := by
  cases h : spec.container.ports <;> simp [replicaContainerSpec, h]

lemma managerCreate_ok (cli : DockerClient) (now : Nat) (cs : ContainerSpec) (c : Container)
    (h : managerCreate cli now cs = .ok c) : c.name = cs.name ∧ c.ports = cs.ports := by
  unfold managerCreate at h
  split at h
  · cases hc : cli.createId cs <;> rw [hc] at h <;> simp at h
    rw [← h]
    exact ⟨rfl, rfl⟩
  · simp at h

/-- The loop with every `Create`/`Start` succeeding: one replica per unit of
fuel, in index order, each echoing the derived per-replica spec. -/
lemma createReplicasFrom_all_ok (rt : Runtime) (spec : DeploymentSpec)
    (hecho : ∀ cs c, rt.create cs = .ok c → c.name = cs.name ∧ c.ports = cs.ports)
    (hst : ∀ id, rt.start id = .ok ())
    (hcr : ∀ j, (rt.create (replicaContainerSpec spec j)).isOk = true) :
    ∀ fuel i, ∃ reps calls,
      createReplicasFrom rt spec i fuel = (.ok reps, calls) ∧
      reps.length = fuel ∧
      ∀ k (hk : k < reps.length),
        (reps.get ⟨k, hk⟩).name = spec.name ++ "-" ++ toString (i + k) ∧
        (reps.get ⟨k, hk⟩).ports = (replicaContainerSpec spec (i + k)).ports := by
  intro fuel
  induction fuel with
  | zero =>
      intro i
      exact ⟨[], [], rfl, rfl, fun k hk => absurd hk (by simp)⟩
  | succ n ih =>
      intro i
      have hcrI := hcr i
      cases hc : rt.create (replicaContainerSpec spec i) with
      | error e => rw [hc] at hcrI; simp [Except.isOk, Except.toBool] at hcrI
      | ok c =>
          obtain ⟨reps, calls, heq, hlen, hprops⟩ := ih (i + 1)
          refine ⟨{ c with status := "running" } :: reps,
            .create (replicaContainerSpec spec i) :: .start c.id :: calls,
            ?_, by simp [hlen], ?_⟩
          · simp only [createReplicasFrom, hc, hst c.id, heq]
          · intro k hk
            cases k with
            | zero =>
                have hech := hecho _ _ hc
                constructor
                · show c.name = _
                  rw [hech.1, replicaContainerSpec_name]
                  rfl
                · show c.ports = _
                  rw [hech.2]
                  rfl
            | succ m =>
                have hm : m < reps.length := by
                  simpa using Nat.lt_of_succ_lt_succ hk
                have := hprops m hm
                have harith : i + 1 + m = i + (m + 1) := by omega
                rw [harith] at this
                exact this

/-- `CreateDeployment` through the real `Manager`, every runtime call
succeeding: the full success behaviour. -/
lemma createDeployment_manager_ok (cli : DockerClient) (st : SchedState)
    (newId : String) (now rnow : Nat) (spec : DeploymentSpec)
    (hfresh : nameExistsD st spec.name = false)
    (hcr : ∀ j, ((managerRuntime cli rnow).create (replicaContainerSpec spec j)).isOk = true)
    (hst : ∀ id, cli.startResult id = .ok ()) :
    ∃ reps calls,
      createDeployment st (managerRuntime cli rnow) newId now spec =
        (.ok { id := newId, name := spec.name, spec := spec, status := "running",
               replicas := reps, created := now },
         { deployments := st.deployments ++
             [(newId, { id := newId, name := spec.name, spec := spec, status := "running",
                        replicas := reps, created := now })],
           services := st.services }, calls) ∧
      reps.length = spec.replicas.toNat ∧
      ∀ k (hk : k < reps.length),
        (reps.get ⟨k, hk⟩).name = spec.name ++ "-" ++ toString k ∧
        (reps.get ⟨k, hk⟩).ports = (replicaContainerSpec spec k).ports := by
  have hecho : ∀ cs c, (managerRuntime cli rnow).create cs = .ok c →
      c.name = cs.name ∧ c.ports = cs.ports :=
    fun cs c h => managerCreate_ok cli rnow cs c h
  have hst' : ∀ id, (managerRuntime cli rnow).start id = .ok () := hst
  obtain ⟨reps, calls, heq, hlen, hprops⟩ :=
    createReplicasFrom_all_ok _ spec hecho hst' hcr spec.replicas.toNat 0
  refine ⟨reps, calls, ?_, hlen, ?_⟩
  · simp [createDeployment, hfresh, heq]
  · intro k hk
    have := hprops k hk
    simpa using this

/-! ## Claim C1: successful CreateDeployment — fan-out and port striping -/

/-- C1: for every deployment spec with a fresh name and `Replicas = R ≥ 0`
whose every runtime `Create` and `Start` call succeeds, `CreateDeployment`
returns a deployment with exactly `R` replicas; replica `i` is named
`"{name}-{i}"` and, for every declared container-port → base-host-port entry
`(p, b)`, replica `i`'s bound host port for `p` is the decimal rendering of
`mustParseInt b + i` (for a numeric base string `b`, the integer `b + i`). -/
theorem createDeployment_success_striping (cli : DockerClient) (st : SchedState)
    (newId : String) (now rnow : Nat) (spec : DeploymentSpec)
    (hfresh : nameExistsD st spec.name = false)
    (hR : 0 ≤ spec.replicas)
    (hcr : ∀ j, ((managerRuntime cli rnow).create (replicaContainerSpec spec j)).isOk = true)
    (hst : ∀ id, cli.startResult id = .ok ()) :
    ∃ d, (createDeployment st (managerRuntime cli rnow) newId now spec).1 = .ok d ∧
      (d.replicas.length : Int) = spec.replicas ∧
      ∀ i (hi : i < d.replicas.length),
        (d.replicas.get ⟨i, hi⟩).name = spec.name ++ "-" ++ toString i ∧
        ∀ p b, (p, b) ∈ spec.container.ports.getD [] →
          (p, toString (mustParseInt b + (i : Int))) ∈
            ((d.replicas.get ⟨i, hi⟩).ports.getD []) := by
  obtain ⟨reps, calls, heq, hlen, hprops⟩ :=
    createDeployment_manager_ok cli st newId now rnow spec hfresh hcr hst
  refine ⟨_, by rw [heq], ?_, ?_⟩
  · show ((reps.length : Int) = spec.replicas)
    rw [hlen, Int.toNat_of_nonneg hR]
  · intro i hi
    obtain ⟨hname, hports⟩ := hprops i hi
    refine ⟨hname, ?_⟩
    intro p b hb
    rw [hports, replicaContainerSpec_ports]
    cases h : spec.container.ports with
    | none => rw [h] at hb; simp at hb
    | some ps =>
        rw [h] at hb
        simp only [Option.getD_some] at hb
        simpa using
          List.mem_map_of_mem
            (fun pb => (pb.1, toString (mustParseInt pb.2 + (i : Int)))) hb

/-! Concrete inputs shared by the witnesses. -/

/-- A Docker oracle that always succeeds, with deterministic IDs. -/
def okCli : DockerClient where
  createId cs := .ok ("cid-" ++ cs.name)
  startResult _ := .ok ()
  stopResult _ := .ok ()
  removeResult _ := .ok ()

/-- A well-formed container template with one declared port. -/
def webContainer : ContainerSpec :=
  { name := "c", image := "nginx", ports := some [("80/tcp", "9000")],
    environment := none, labels := none, command := none, args := none,
    workingDir := "", volumes := none }

/-- The spec of §8's scenario: `web`, 3 replicas, `80/tcp → 9000`. -/
def webSpec : DeploymentSpec :=
  { name := "web", replicas := 3, container := webContainer, strategy := "" }

/-- The empty registry. -/
def emptySt : SchedState := ⟨[], []⟩

/-- Witness for C1 at the §8 scenario input. -/
theorem createDeployment_success_striping_witness :
    nameExistsD emptySt "web" = false ∧ (0 : Int) ≤ 3 ∧
    (∃ d, (createDeployment emptySt (managerRuntime okCli 5) "d1" 7 webSpec).1 = .ok d ∧
      (d.replicas.length : Int) = webSpec.replicas ∧
      ∀ i (hi : i < d.replicas.length),
        (d.replicas.get ⟨i, hi⟩).name = webSpec.name ++ "-" ++ toString i ∧
        ∀ p b, (p, b) ∈ webSpec.container.ports.getD [] →
          (p, toString (mustParseInt b + (i : Int))) ∈
            ((d.replicas.get ⟨i, hi⟩).ports.getD [])) :=
  ⟨by decide, by decide,
   createDeployment_success_striping okCli emptySt "d1" 7 5 webSpec
     (by decide) (by decide) (fun j => rfl) (fun id => rfl)⟩

/-! ## Claim C9: mustParseInt is total; unscannable base ports stripe from 0 -/

/-- C9: `mustParseInt` never fails (despite its comment claiming it panics on
error): it returns the integer scanned by a leading `%d` conversion and `0`
when none can be scanned.  Consequently `CreateDeployment` with a base host
port `b` that has no leading decimal integer still succeeds, assigning
replica `i` the host port string `toString (0 + i)`. -/
theorem mustParseInt_total_and_zero_striping :
    (∀ s, sscanfInt s = none → mustParseInt s = 0) ∧
    (∀ (cli : DockerClient) (st : SchedState) (newId : String) (now rnow : Nat)
       (spec : DeploymentSpec) (p b : String),
      nameExistsD st spec.name = false →
      (∀ j, ((managerRuntime cli rnow).create (replicaContainerSpec spec j)).isOk = true) →
      (∀ id, cli.startResult id = .ok ()) →
      (p, b) ∈ spec.container.ports.getD [] →
      sscanfInt b = none →
      ∃ d, (createDeployment st (managerRuntime cli rnow) newId now spec).1 = .ok d ∧
        ∀ i (hi : i < d.replicas.length),
          (p, toString ((0 : Int) + (i : Int))) ∈
            ((d.replicas.get ⟨i, hi⟩).ports.getD [])) := by
  constructor
  · intro s h
    simp [mustParseInt, h]
  · intro cli st newId now rnow spec p b hfresh hcr hst hb hscan
    obtain ⟨reps, calls, heq, hlen, hprops⟩ :=
      createDeployment_manager_ok cli st newId now rnow spec hfresh hcr hst
    refine ⟨_, by rw [heq], ?_⟩
    intro i hi
    obtain ⟨hname, hports⟩ := hprops i hi
    have hzero : mustParseInt b = 0 := by simp [mustParseInt, hscan]
    rw [hports, replicaContainerSpec_ports]
    cases h : spec.container.ports with
    | none => rw [h] at hb; simp at hb
    | some ps =>
        rw [h] at hb
        simp only [Option.getD_some] at hb
        have := List.mem_map_of_mem
          (fun pb => (pb.1, toString (mustParseInt pb.2 + (i : Int)))) hb
        simp only [hzero] at this
        simpa using this

/-- A container template whose base host port has no leading integer. -/
def badPortContainer : ContainerSpec :=
  { webContainer with ports := some [("80/tcp", "http")] }

/-- A deployment spec carrying `badPortContainer`. -/
def badPortSpec : DeploymentSpec :=
  { name := "bad", replicas := 2, container := badPortContainer, strategy := "" }

/-- Witness for C9: scanning `"http"` fails, and the deployment's replica 1
is bound to host port `"1"`. -/
theorem mustParseInt_total_and_zero_striping_witness :
    (sscanfInt "http" = none ∧ mustParseInt "http" = 0) ∧
    (∃ d, (createDeployment emptySt (managerRuntime okCli 5) "d9" 7 badPortSpec).1 = .ok d ∧
      ∀ i (hi : i < d.replicas.length),
        ("80/tcp", toString ((0 : Int) + (i : Int))) ∈
          ((d.replicas.get ⟨i, hi⟩).ports.getD [])) :=
  ⟨⟨by decide, mustParseInt_total_and_zero_striping.1 "http" (by decide)⟩,
   mustParseInt_total_and_zero_striping.2 okCli emptySt "d9" 7 5 badPortSpec "80/tcp" "http"
     (by decide) (fun j => rfl) (fun id => rfl) (by decide) (by decide)⟩

/-! ## Claim C4: duplicate names are rejected without side effects -/

/-- C4: a `CreateDeployment` whose spec's name matches a registered
deployment fails with the already-exists error, leaves the registry unchanged
and issues no runtime call; independently, a `CreateService` whose spec's
name matches a registered service does the same — each over every registry
state satisfying only its own duplicate-name premise. -/
theorem duplicate_name_rejected (st : SchedState) (rt : Runtime) (newId : String)
    (now : Nat) (dspec : DeploymentSpec) (sspec : ServiceSpec) :
    ((∃ p ∈ st.deployments, p.2.name = dspec.name) →
      createDeployment st rt newId now dspec =
        (.error (.alreadyExists dspec.name), st, [])) ∧
    ((∃ p ∈ st.services, p.2.name = sspec.name) →
      createService st newId now sspec = (.error (.alreadyExists sspec.name), st)) := by
  constructor
  · intro hd
    have hd' : nameExistsD st dspec.name = true := (nameExistsD_iff st dspec.name).mpr hd
    simp [createDeployment, hd']
  · intro hs
    have hs' : nameExistsS st sspec.name = true := (nameExistsS_iff st sspec.name).mpr hs
    simp [createService, hs']

/-- A registry holding one deployment `web` and one service `api`. -/
def oneEachSt : SchedState :=
  { deployments :=
      [("d1", { id := "d1", name := "web", spec := webSpec, status := "running",
                replicas := [], created := 7 })],
    services :=
      [("s1", { id := "s1", name := "api",
                spec := { name := "api", type := "ClusterIP", selector := [],
                          ports := [⟨8080, 80⟩] },
                endpoints := [], status := "active", created := 7 })] }

/-- A registry holding one deployment `web` and no services. -/
def depOnlySt : SchedState := { deployments := oneEachSt.deployments, services := [] }

/-- A registry holding one service `api` and no deployments. -/
def svcOnlySt : SchedState := { deployments := [], services := oneEachSt.services }

/-- Witness for C4: each half applies on its own — a duplicate deployment
name over a service-free registry, and a duplicate service name over a
deployment-free registry. -/
theorem duplicate_name_rejected_witness :
    (∃ p ∈ depOnlySt.deployments, p.2.name = webSpec.name) ∧
    (∃ p ∈ svcOnlySt.services, p.2.name = "api") ∧
    createDeployment depOnlySt (managerRuntime okCli 5) "d2" 9 webSpec =
      (.error (.alreadyExists "web"), depOnlySt, []) ∧
    createService svcOnlySt "s2" 9
        { name := "api", type := "NodePort", selector := [], ports := [⟨9090, 90⟩] } =
      (.error (.alreadyExists "api"), svcOnlySt) :=
  ⟨by decide, by decide,
   (duplicate_name_rejected depOnlySt (managerRuntime okCli 5) "d2" 9 webSpec
      { name := "api", type := "NodePort", selector := [], ports := [⟨9090, 90⟩] }).1
     (by decide),
   (duplicate_name_rejected svcOnlySt (managerRuntime okCli 5) "s2" 9 webSpec
      { name := "api", type := "NodePort", selector := [], ports := [⟨9090, 90⟩] }).2
     (by decide)⟩

/-! ## Claim C10: no lower replica bound in the scheduler itself -/

/-- C10: `CreateDeployment` with a fresh name and `Replicas ≤ 0` is not a
validation error: it issues no runtime call and registers a deployment with
an empty replica list and status `"running"`; the `Replicas ≥ 1` (and
`≤ 100`) checks exist in the HTTP transport layer
(`createDeploymentHandler`), which rejects every spec with `Replicas < 1`. -/
theorem createDeployment_no_lower_bound (st : SchedState) (rt : Runtime)
    (newId : String) (now : Nat) (spec : DeploymentSpec)
    (hfresh : nameExistsD st spec.name = false)
    (hR : spec.replicas ≤ 0) :
    createDeployment st rt newId now spec =
      (.ok { id := newId, name := spec.name, spec := spec, status := "running",
             replicas := [], created := now },
       { deployments := st.deployments ++
           [(newId, { id := newId, name := spec.name, spec := spec, status := "running",
                      replicas := [], created := now })],
         services := st.services }, []) ∧
    (∀ sp : DeploymentSpec, sp.replicas < 1 → (handlerValidateDeployment sp).isSome = true) := by
  constructor
  · have h0 : spec.replicas.toNat = 0 := Int.toNat_of_nonpos hR
    simp [createDeployment, hfresh, h0, createReplicasFrom]
  · intro sp hsp
    simp only [handlerValidateDeployment]
    split
    · simp
    · simp [hsp]

/-- A deployment spec asking for `-2` replicas. -/
def negSpec : DeploymentSpec :=
  { name := "neg", replicas := -2, container := webContainer, strategy := "" }

/-- Witness for C10 at `negSpec` over the empty registry. -/
theorem createDeployment_no_lower_bound_witness :
    nameExistsD emptySt "neg" = false ∧ (-2 : Int) ≤ 0 ∧
    (createDeployment emptySt (managerRuntime okCli 5) "d3" 9 negSpec =
      (.ok { id := "d3", name := "neg", spec := negSpec, status := "running",
             replicas := [], created := 9 },
       { deployments :=
           [("d3", { id := "d3", name := "neg", spec := negSpec, status := "running",
                     replicas := [], created := 9 })],
         services := [] }, []) ∧
     (∀ sp : DeploymentSpec, sp.replicas < 1 → (handlerValidateDeployment sp).isSome = true)) :=
  ⟨by decide, by decide,
   createDeployment_no_lower_bound emptySt (managerRuntime okCli 5) "d3" 9 negSpec
     (by decide) (by decide)⟩

/-! ## Claim C2: atomic rollback on replica failure -/

lemma cleanupCalls_filter (l : List Container) :
    (cleanupCalls l).filter RtCall.isStopOrRemove = cleanupCalls l := by
  induction l with
  | nil => rfl
  | cons c t ih => simp [cleanupCalls, List.filter_append, RtCall.isStopOrRemove] at ih ⊢; exact ih

lemma cleanupCalls_map {α : Type} (f : α → Container) (l : List α) :
    cleanupCalls (l.map f) =
      l.flatMap (fun a => [RtCall.stop (f a).id, RtCall.remove (f a).id]) := by
  induction l with
  | nil => rfl
  | cons a t ih => simp [cleanupCalls] at ih ⊢; exact ih

/-- The loop when indices `[0, k)` (relative to start index `i`) succeed and
index `k` fails: an error whose partial replica list is exactly the `k`
successes, with no stop/remove call issued by the loop itself. -/
lemma createReplicasFrom_fail (rt : Runtime) (spec : DeploymentSpec) (c : Nat → Container) :
    ∀ (k i fuel : Nat), k < fuel →
    (∀ j, j < k → rt.create (replicaContainerSpec spec (i + j)) = .ok (c (i + j))) →
    (∀ j, j < k → rt.start (c (i + j)).id = .ok ()) →
    ((rt.create (replicaContainerSpec spec (i + k))).isOk = false ∨
      (∃ ck, rt.create (replicaContainerSpec spec (i + k)) = .ok ck ∧
             (rt.start ck.id).isOk = false)) →
    ∃ e made calls,
      createReplicasFrom rt spec i fuel = (.error (e, made), calls) ∧
      made = (List.range k).map (fun j => { c (i + j) with status := "running" }) ∧
      calls.filter RtCall.isStopOrRemove = [] := by
  intro k
  induction k with
  | zero =>
      intro i fuel hkf hcr hst hfail
      obtain ⟨m, rfl⟩ : ∃ m, fuel = m + 1 := ⟨fuel - 1, by omega⟩
      rcases hfail with hf | ⟨ck, hok, hsf⟩
      · cases hc : rt.create (replicaContainerSpec spec (i + 0)) with
        | ok cc => rw [hc] at hf; simp [Except.isOk, Except.toBool] at hf
        | error e =>
            rw [Nat.add_zero] at hc
            exact ⟨.createFailed i e, [], [.create (replicaContainerSpec spec i)],
              by simp only [createReplicasFrom, hc], by simp,
              by simp [RtCall.isStopOrRemove]⟩
      · rw [Nat.add_zero] at hok
        cases hs : rt.start ck.id with
        | ok u => rw [hs] at hsf; simp [Except.isOk, Except.toBool] at hsf
        | error e =>
            exact ⟨.startFailed i e, [],
              [.create (replicaContainerSpec spec i), .start ck.id],
              by simp only [createReplicasFrom, hok, hs], by simp,
              by simp [RtCall.isStopOrRemove]⟩
  | succ n ihn =>
      intro i fuel hkf hcr hst hfail
      obtain ⟨m, rfl⟩ : ∃ m, fuel = m + 1 := ⟨fuel - 1, by omega⟩
      have hc0 : rt.create (replicaContainerSpec spec i) = .ok (c i) := by
        have := hcr 0 (by omega)
        rwa [Nat.add_zero] at this
      have hs0 : rt.start (c i).id = .ok () := by
        have := hst 0 (by omega)
        rwa [Nat.add_zero] at this
      have hcr' : ∀ j, j < n →
          rt.create (replicaContainerSpec spec (i + 1 + j)) = .ok (c (i + 1 + j)) := by
        intro j hj
        have := hcr (j + 1) (by omega)
        rwa [show i + (j + 1) = i + 1 + j by omega] at this
      have hst' : ∀ j, j < n → rt.start (c (i + 1 + j)).id = .ok () := by
        intro j hj
        have := hst (j + 1) (by omega)
        rwa [show i + (j + 1) = i + 1 + j by omega] at this
      have hfail' : ((rt.create (replicaContainerSpec spec (i + 1 + n))).isOk = false ∨
          (∃ ck, rt.create (replicaContainerSpec spec (i + 1 + n)) = .ok ck ∧
                 (rt.start ck.id).isOk = false)) := by
        rwa [show i + (n + 1) = i + 1 + n by omega] at hfail
      obtain ⟨e, made, calls, heq, hmade, hfil⟩ := ihn (i + 1) m (by omega) hcr' hst' hfail'
      refine ⟨e, { c i with status := "running" } :: made,
        .create (replicaContainerSpec spec i) :: .start (c i).id :: calls, ?_, ?_, ?_⟩
      · simp only [createReplicasFrom, hc0, hs0, heq]
      · rw [hmade, List.range_succ_eq_map]
        simp only [List.map_cons, List.map_map]
        refine congrArg₂ _ rfl ?_
        apply List.map_congr_left
        intro a ha
        simp only [Function.comp]
        rw [show i + 1 + a = i + (a + 1) by omega]
      · simp [List.filter, RtCall.isStopOrRemove, hfil]

/-- C2: if a runtime `Create` or `Start` call fails at replica index `k`,
`CreateDeployment` returns an error, leaves the registry unchanged, and the
stop/remove calls it issues are `Stop` then `Remove` exactly for the replicas
created at indices `[0, k)`, in order. -/
theorem createDeployment_rollback (st : SchedState) (rt : Runtime) (newId : String)
    (now : Nat) (spec : DeploymentSpec) (c : Nat → Container) (k : Nat)
    (hfresh : nameExistsD st spec.name = false)
    (hk : k < spec.replicas.toNat)
    (hcr : ∀ j, j < k → rt.create (replicaContainerSpec spec j) = .ok (c j))
    (hst : ∀ j, j < k → rt.start (c j).id = .ok ())
    (hfail : (rt.create (replicaContainerSpec spec k)).isOk = false ∨
      (∃ ck, rt.create (replicaContainerSpec spec k) = .ok ck ∧
             (rt.start ck.id).isOk = false)) :
    ∃ e, (createDeployment st rt newId now spec).1 = .error e ∧
      (createDeployment st rt newId now spec).2.1 = st ∧
      ((createDeployment st rt newId now spec).2.2).filter RtCall.isStopOrRemove =
        (List.range k).flatMap (fun j => [RtCall.stop (c j).id, RtCall.remove (c j).id]) := by
  have hcr0 : ∀ j, j < k → rt.create (replicaContainerSpec spec (0 + j)) = .ok (c (0 + j)) := by
    intro j hj
    rw [Nat.zero_add]
    exact hcr j hj
  have hst0 : ∀ j, j < k → rt.start (c (0 + j)).id = .ok () := by
    intro j hj
    rw [Nat.zero_add]
    exact hst j hj
  have hfail0 : ((rt.create (replicaContainerSpec spec (0 + k))).isOk = false ∨
      (∃ ck, rt.create (replicaContainerSpec spec (0 + k)) = .ok ck ∧
             (rt.start ck.id).isOk = false)) := by
    rwa [Nat.zero_add]
  obtain ⟨e, made, calls, heq, hmade, hfil⟩ :=
    createReplicasFrom_fail rt spec c k 0 spec.replicas.toNat hk hcr0 hst0 hfail0
  have hcd : createDeployment st rt newId now spec = (.error e, st, calls ++ cleanupCalls made) := by
    simp [createDeployment, hfresh, heq]
  refine ⟨e, by rw [hcd], by rw [hcd], ?_⟩
  rw [hcd]
  show (calls ++ cleanupCalls made).filter RtCall.isStopOrRemove = _
  rw [List.filter_append, hfil, cleanupCalls_filter, List.nil_append, hmade, cleanupCalls_map]
  simp

/-- A Docker oracle that refuses to create the container named `web-1`. -/
def failAt1Cli : DockerClient where
  createId cs := if cs.name == "web-1" then .error "boom" else .ok ("cid-" ++ cs.name)
  startResult _ := .ok ()
  stopResult _ := .ok ()
  removeResult _ := .ok ()

/-- The containers `failAt1Cli`'s manager hands back for `webSpec`. -/
def webContainerAt (j : Nat) : Container :=
  { id := "cid-web-" ++ toString j, name := "web-" ++ toString j, image := "nginx",
    status := "created", ports := some [("80/tcp", toString ((9000 : Int) + (j : Int)))],
    environment := none, labels := none, created := 5, started := none }

/-- Witness for C2: creation of `web` fails at replica index 1; replica 0 is
stopped and removed, the registry stays empty. -/
theorem createDeployment_rollback_witness :
    nameExistsD emptySt "web" = false ∧ 1 < (3 : Int).toNat ∧
    (∃ e, (createDeployment emptySt (managerRuntime failAt1Cli 5) "d1" 7 webSpec).1 = .error e ∧
      (createDeployment emptySt (managerRuntime failAt1Cli 5) "d1" 7 webSpec).2.1 = emptySt ∧
      ((createDeployment emptySt (managerRuntime failAt1Cli 5) "d1" 7 webSpec).2.2).filter
          RtCall.isStopOrRemove =
        (List.range 1).flatMap
          (fun j => [RtCall.stop (webContainerAt j).id, RtCall.remove (webContainerAt j).id])) :=
  ⟨by decide, by decide,
   createDeployment_rollback emptySt (managerRuntime failAt1Cli 5) "d1" 7 webSpec
     webContainerAt 1 (by decide) (by decide) (by decide) (by decide)
     (Or.inl (by decide))⟩

/-! ## Claim C6: DeleteDeployment is best-effort and always logically deletes -/

/-- C6: when some registered deployment carries the requested name,
`DeleteDeployment` issues `Stop` then `Remove` for each of its replicas,
removes the registry entry and returns success — for every runtime, i.e.
regardless of how those calls fare; when no deployment matches, it returns
the not-found error and leaves the registry unchanged. -/
theorem deleteDeployment_best_effort (st : SchedState) (rt : Runtime) (name : String) :
    ((∃ p ∈ st.deployments, p.2.name = name) →
      ∃ id d, findDeployment st name = some (id, d) ∧ d.name = name ∧
        deleteDeployment st rt name =
          (.ok (),
           { deployments := st.deployments.filter (fun p => p.1 ≠ id),
             services := st.services },
           d.replicas.flatMap (fun r => [RtCall.stop r.id, RtCall.remove r.id]))) ∧
    ((∀ p ∈ st.deployments, p.2.name ≠ name) →
      deleteDeployment st rt name = (.error (.notFound name), st, [])) := by
  constructor
  · rintro ⟨p, hp, hpn⟩
    cases hf : findDeployment st name with
    | none =>
        exfalso
        have := List.find?_eq_none.mp hf p hp
        simp [hpn] at this
    | some pr =>
        obtain ⟨id, d⟩ := pr
        have hmatch : (d.name == name) = true := by
          have := List.find?_some hf
          simpa using this
        refine ⟨id, d, rfl, by simpa using hmatch, ?_⟩
        simp [deleteDeployment, hf, cleanupCalls]
  · intro hnone
    have hf : findDeployment st name = none := by
      apply List.find?_eq_none.mpr
      intro p hp
      simp [hnone p hp]
    simp [deleteDeployment, hf]

/-- A registry with one two-replica deployment `web`. -/
def twoRepSt : SchedState :=
  { deployments :=
      [("d1", { id := "d1", name := "web", spec := webSpec, status := "running",
                replicas := [webContainerAt 0, webContainerAt 1], created := 7 })],
    services := [] }

/-- A Docker oracle whose stop/remove calls always fail. -/
def stopFailCli : DockerClient where
  createId cs := .ok ("cid-" ++ cs.name)
  startResult _ := .ok ()
  stopResult _ := .error "gone"
  removeResult _ := .error "gone"

/-- Witness for C6 over `twoRepSt`, under a runtime whose cleanup calls all
fail: deletion still succeeds, and an unknown name is not found. -/
theorem deleteDeployment_best_effort_witness :
    (∃ p ∈ twoRepSt.deployments, p.2.name = "web") ∧
    (∃ id d, findDeployment twoRepSt "web" = some (id, d) ∧ d.name = "web" ∧
      deleteDeployment twoRepSt (managerRuntime stopFailCli 5) "web" =
        (.ok (),
         { deployments := twoRepSt.deployments.filter (fun p => p.1 ≠ id),
           services := twoRepSt.services },
         d.replicas.flatMap (fun r => [RtCall.stop r.id, RtCall.remove r.id]))) ∧
    deleteDeployment twoRepSt (managerRuntime stopFailCli 5) "ghost" =
      (.error (.notFound "ghost"), twoRepSt, []) :=
  ⟨by decide,
   (deleteDeployment_best_effort twoRepSt (managerRuntime stopFailCli 5) "web").1 (by decide),
   (deleteDeployment_best_effort twoRepSt (managerRuntime stopFailCli 5) "ghost").2 (by decide)⟩

/-! ## Claim C7: corrupt-file tolerance of LoadAllDeployments -/

/-- A directory entry that will load: a JSON document `Unmarshal` accepts. -/
def isWellFormedFile (f : String × FileContent) : Bool :=
  match f.2 with
  | .json j => (decodeDeployment j).isSome
  | _ => false

/-- The document a directory entry holds, if any. -/
def docOfFile (f : String × FileContent) : Option Deployment :=
  match f.2 with
  | .json j => decodeDeployment j
  | _ => none

lemma loadAllFiles_eq : ∀ files : List (String × FileContent),
    loadAllFiles files =
      (files.filterMap (fun f => if hasJsonExt f.1 then docOfFile f else none),
       (files.filter (fun f => hasJsonExt f.1 && !isWellFormedFile f)).length)
  | [] => rfl
  | (nm, fc) :: rest => by
      have ih := loadAllFiles_eq rest
      cases hx : hasJsonExt nm with
      | false =>
          simp [loadAllFiles, hx, ih, docOfFile, isWellFormedFile]
      | true =>
          cases fc with
          | unreadable => simp [loadAllFiles, hx, ih, docOfFile, isWellFormedFile]
          | badSyntax => simp [loadAllFiles, hx, ih, docOfFile, isWellFormedFile]
          | json j =>
              cases hd : decodeDeployment j <;>
                simp [loadAllFiles, hx, hd, ih, docOfFile, isWellFormedFile]

lemma docOfFile_length : ∀ files : List (String × FileContent),
    (files.filterMap docOfFile).length +
      (files.filter (fun f => !isWellFormedFile f)).length = files.length
  | [] => rfl
  | (nm, fc) :: rest => by
      have ih := docOfFile_length rest
      cases fc with
      | unreadable =>
          have h1 : docOfFile (nm, FileContent.unreadable) = none := rfl
          have h2 : isWellFormedFile (nm, FileContent.unreadable) = false := rfl
          simp [List.filterMap_cons, List.filter_cons, h1, h2]
          omega
      | badSyntax =>
          have h1 : docOfFile (nm, FileContent.badSyntax) = none := rfl
          have h2 : isWellFormedFile (nm, FileContent.badSyntax) = false := rfl
          simp [List.filterMap_cons, List.filter_cons, h1, h2]
          omega
      | json j =>
          have h1 : docOfFile (nm, FileContent.json j) = decodeDeployment j := rfl
          have h2 : isWellFormedFile (nm, FileContent.json j) = (decodeDeployment j).isSome := rfl
          cases hd : decodeDeployment j <;>
            simp [List.filterMap_cons, List.filter_cons, h1, h2, hd] <;>
            omega

/-- C7: over a readable directory of `.json` record files of which exactly
one is corrupt (unreadable, unparsable, or undecodable), `LoadAllDeployments`
returns exactly the well-formed documents, in order, with a nil error and one
warning; the file count exceeds the result count by one. -/
theorem loadAllDeployments_corrupt_tolerance (files : List (String × FileContent))
    (hjson : ∀ f ∈ files, hasJsonExt f.1 = true)
    (hone : (files.filter (fun f => !isWellFormedFile f)).length = 1) :
    loadAllDeployments (some files) = .ok (files.filterMap docOfFile, 1) ∧
    (files.filterMap docOfFile).length + 1 = files.length := by
  have hmap : files.filterMap (fun f => if hasJsonExt f.1 then docOfFile f else none)
      = files.filterMap docOfFile := by
    apply List.filterMap_congr
    intro f hf
    rw [hjson f hf]
    simp
  have hfil : files.filter (fun f => hasJsonExt f.1 && !isWellFormedFile f)
      = files.filter (fun f => !isWellFormedFile f) := by
    apply List.filter_congr
    intro f hf
    rw [hjson f hf]
    simp
  constructor
  · simp only [loadAllDeployments, loadAllFiles_eq, hmap, hfil, hone]
  · rw [← hone]
    exact docOfFile_length files

/-- A well-formed stored document. -/
def storedDep (i : Nat) : Deployment :=
  { id := "dep" ++ toString i, name := "app" ++ toString i, spec := webSpec,
    status := "running", replicas := [], created := i }

/-- Two good record files around one syntactically corrupt one. -/
def mixedDir : List (String × FileContent) :=
  [("dep0.json", .json (encodeDeployment (storedDep 0))),
   ("broken.json", .badSyntax),
   ("dep1.json", .json (encodeDeployment (storedDep 1)))]

/-- Witness for C7 over `mixedDir`: both good documents load, one warning,
no error. -/
theorem loadAllDeployments_corrupt_tolerance_witness :
    (∀ f ∈ mixedDir, hasJsonExt f.1 = true) ∧
    (mixedDir.filter (fun f => !isWellFormedFile f)).length = 1 ∧
    (loadAllDeployments (some mixedDir) = .ok (mixedDir.filterMap docOfFile, 1) ∧
     (mixedDir.filterMap docOfFile).length + 1 = mixedDir.length) :=
  ⟨by decide, by decide,
   loadAllDeployments_corrupt_tolerance mixedDir (by decide) (by decide)⟩

/-! ## Claim C8: Save/Load round trip -/

/-- The `omitempty` normalization `Marshal` then `Unmarshal` applies to
every nilable map/slice field: an empty-but-present collection comes back as
the `nil` one. -/
def normOptList {α : Type} : Option (List α) → Option (List α)
  | some [] => none
  | x => x

/-- `ContainerSpec` after a marshalling round trip: every `omitempty`
map/slice field normalized. -/
def normContainerSpec (cs : ContainerSpec) : ContainerSpec :=
  { cs with ports := normOptList cs.ports, environment := normOptList cs.environment,
            labels := normOptList cs.labels, command := normOptList cs.command,
            args := normOptList cs.args, volumes := normOptList cs.volumes }

/-- `Container` after a marshalling round trip. -/
def normContainer (c : Container) : Container :=
  { c with ports := normOptList c.ports, environment := normOptList c.environment,
           labels := normOptList c.labels }

/-- `Deployment` after a marshalling round trip. -/
def normDeployment (d : Deployment) : Deployment :=
  { d with spec := { d.spec with container := normContainerSpec d.spec.container },
           replicas := d.replicas.map normContainer }

lemma jGet_append (l1 l2 : List (String × Json)) (k : String) :
    jGet (l1 ++ l2) k = (jGet l1 k).or (jGet l2 k) := by
  unfold jGet
  rw [List.find?_append]
  cases l1.find? (fun f => f.1 == k) <;> simp

@[simp] lemma jGet_nil (k : String) : jGet [] k = none := rfl

@[simp] lemma jGet_cons_self (k : String) (v : Json) (rest : List (String × Json)) :
    jGet ((k, v) :: rest) k = some v := by
  simp [jGet]

lemma jGet_cons_ne (k k' : String) (v : Json) (rest : List (String × Json))
    (h : (k' == k) = false) : jGet ((k', v) :: rest) k = jGet rest k := by
  unfold jGet
  rw [List.find?_cons_of_neg]
  simp [h]

lemma jGet_optJ_self (b : Bool) (k : String) (v : Json) :
    jGet (optJ b k v) k = if b then some v else none := by
  cases b <;> simp [optJ, jGet]

lemma jGet_optJ_ne (b : Bool) (k k' : String) (v : Json) (h : (k' == k) = false) :
    jGet (optJ b k' v) k = none := by
  cases b <;> simp [optJ, jGet, h]

lemma decPairs_encPairs : ∀ ps, decPairs (encPairs ps) = some ps
  | [] => rfl
  | p :: t => by
      have ih : (List.map (fun q => (q.1, Json.str q.2)) t).mapM
          (fun kv => match kv.2 with | Json.str s => some (kv.1, s) | _ => none) = some t :=
        decPairs_encPairs t
      show ((p.1, Json.str p.2) :: List.map (fun q => (q.1, Json.str q.2)) t).mapM
          (fun kv => match kv.2 with | Json.str s => some (kv.1, s) | _ => none) = some (p :: t)
      rw [List.mapM_cons, ih]
      rfl

lemma mapM_map_round {α β : Type} (l : List α) (f : α → Json) (g : Json → Option β)
    (n : α → β) (h : ∀ a ∈ l, g (f a) = some (n a)) :
    (l.map f).mapM g = some (l.map n) := by
  induction l with
  | nil => rfl
  | cons a t ih =>
      rw [List.map_cons, List.mapM_cons, h a (by simp),
        ih (fun x hx => h x (by simp [hx]))]
      rfl

lemma decOptMapV_enc (m : Option (List (String × String))) :
    decOptMapV (if keptList m then some (encPairs (m.getD [])) else none) =
      some (normOptList m) := by
  match m with
  | none => rfl
  | some [] => rfl
  | some (p :: ps) =>
      show decOptMapV (some (encPairs (p :: ps))) = some (some (p :: ps))
      show (decPairs (encPairs (p :: ps))).map some = some (some (p :: ps))
      rw [decPairs_encPairs]
      rfl

lemma decOptStrListV_enc (l : Option (List String)) :
    decOptStrListV (if keptList l then some (encStrList (l.getD [])) else none) =
      some (normOptList l) := by
  match l with
  | none => rfl
  | some [] => rfl
  | some (s :: t) =>
      show (((s :: t).map Json.str).mapM
          (fun x => match x with | Json.str s => some s | _ => none)).map some =
        some (some (s :: t))
      have := mapM_map_round (s :: t) Json.str
        (fun x => match x with | .str s => some s | _ => none) (fun s => s)
        (fun a _ => rfl)
      rw [this]
      simp

lemma decStrV_omit (s : String) :
    decStrV (if s = "" then none else some (.str s)) = some s := by
  by_cases h : s = ""
  · subst h; rfl
  · rw [if_neg h]
    rfl

@[simp] lemma decStrV_str (s : String) : decStrV (some (.str s)) = some s := rfl

@[simp] lemma decStrV_none : decStrV none = some "" := rfl

lemma decBoolV_omit (b : Bool) :
    decBoolV (if b then some (.bool b) else none) = some b := by
  cases b <;> rfl

lemma decStartedV_enc (o : Option Nat) :
    decStartedV (if o.isSome then some (.num (o.getD 0)) else none) = some o := by
  match o with
  | none => rfl
  | some t =>
      show decStartedV (some (.num (t : Nat))) = some (some t)
      simp [decStartedV]

lemma decNatV_enc (n : Nat) : decNatV (some (.num n)) = some n := by
  simp [decNatV]

lemma round_volume (v : VolumeMount) :
    decodeVolumeMount (encodeVolumeMount v) = some v := by
  obtain ⟨src, dst, ro⟩ := v
  simp [encodeVolumeMount, decodeVolumeMount, jGet_append, jGet_cons_ne,
    jGet_optJ_self, jGet_optJ_ne, decStrV, decBoolV_omit]

lemma decOptVolumesV_enc (l : Option (List VolumeMount)) :
    decOptVolumesV
        (if keptList l then some (.arr ((l.getD []).map encodeVolumeMount)) else none) =
      some (normOptList l) := by
  match l with
  | none => rfl
  | some [] => rfl
  | some (v :: t) =>
      show (((v :: t).map encodeVolumeMount).mapM decodeVolumeMount).map some =
        some (some (v :: t))
      have := mapM_map_round (v :: t) encodeVolumeMount decodeVolumeMount (fun v => v)
        (fun a _ => round_volume a)
      rw [this]
      simp

lemma round_containerSpec (cs : ContainerSpec) :
    decodeContainerSpec (encodeContainerSpec cs) = some (normContainerSpec cs) := by
  obtain ⟨nm, im, ports, env, lbl, cmd, argsv, wd, vols⟩ := cs
  simp [encodeContainerSpec, decodeContainerSpec, jGet_append, jGet_cons_ne,
    jGet_optJ_self, jGet_optJ_ne, decOptMapV_enc, decOptStrListV_enc,
    decStrV_omit, decOptVolumesV_enc, normContainerSpec]

lemma round_container (c : Container) :
    decodeContainer (encodeContainer c) = some (normContainer c) := by
  obtain ⟨cid, nm, im, stt, ports, env, lbl, cr, strt⟩ := c
  simp [encodeContainer, decodeContainer, jGet_append, jGet_cons_ne,
    jGet_optJ_self, jGet_optJ_ne, decOptMapV_enc,
    decStartedV_enc, decNatV_enc, normContainer]

lemma round_deploymentSpec (ds : DeploymentSpec) :
    decodeDeploymentSpec (encodeDeploymentSpec ds) =
      some { ds with container := normContainerSpec ds.container } := by
  obtain ⟨nm, reps, cont, strat⟩ := ds
  have hstruct : decStructV decodeContainerSpec (some (encodeContainerSpec cont)) =
      decodeContainerSpec (encodeContainerSpec cont) := rfl
  simp [encodeDeploymentSpec, decodeDeploymentSpec, jGet_append, jGet_cons_ne,
    jGet_optJ_self, jGet_optJ_ne, hstruct, round_containerSpec, decStrV_omit, decIntV]

lemma decReplicasV_enc (l : List Container) :
    decReplicasV (some (.arr (l.map encodeContainer))) = some (l.map normContainer) :=
  mapM_map_round l encodeContainer decodeContainer normContainer
    (fun a _ => round_container a)

lemma round_deployment (d : Deployment) :
    decodeDeployment (encodeDeployment d) = some (normDeployment d) := by
  obtain ⟨did, nm, spec, stt, reps, cr⟩ := d
  have hstruct : decStructV decodeDeploymentSpec (some (encodeDeploymentSpec spec)) =
      decodeDeploymentSpec (encodeDeploymentSpec spec) := rfl
  simp [encodeDeployment, decodeDeployment, jGet_append, jGet_cons_ne,
    hstruct, round_deploymentSpec, decReplicasV_enc, decNatV_enc, normDeployment]

lemma find_saved (dir : DepDir) (d : Deployment) :
    ((saveDeployment dir d).files.find? (fun f => f.1 == depFileName d.id)) =
      some (depFileName d.id, .json (encodeDeployment d)) := by
  unfold saveDeployment
  rw [List.find?_append]
  have hnone : (dir.files.filter (fun f => f.1 ≠ depFileName d.id)).find?
      (fun f => f.1 == depFileName d.id) = none := by
    rw [List.find?_eq_none]
    intro f hf
    have hne := of_decide_eq_true (List.mem_filter.mp hf).2
    simp [hne]
  rw [hnone]
  simp

/-- C8 (amended): `SaveDeployment` then `LoadDeployment` of the same ID
returns the document with every empty-but-present `omitempty` map/slice
field — the ports, environment and labels maps and the command, args and
volumes slices, in the spec's template and in every replica — normalized to
the nil collection; in particular it returns a document equal to the
original in every field whenever the original contains no empty-but-present
`omitempty` collection (`normDeployment d = d`). -/
theorem saveDeployment_loadDeployment_roundtrip (dir : DepDir) (d : Deployment) :
    loadDeployment (saveDeployment dir d) d.id = .ok (normDeployment d) ∧
    (normDeployment d = d → loadDeployment (saveDeployment dir d) d.id = .ok d) := by
  have h1 : loadDeployment (saveDeployment dir d) d.id = .ok (normDeployment d) := by
    unfold loadDeployment
    rw [find_saved]
    simp [round_deployment]
  exact ⟨h1, fun h => by rw [h1, h]⟩

/-- A deployment whose template carries an empty-but-present ports map. -/
def emptyPortsDep : Deployment :=
  { id := "dx", name := "web",
    spec := { name := "web", replicas := 1,
              container := { webContainer with ports := some [] }, strategy := "" },
    status := "running", replicas := [], created := 7 }

/-- Counterexample to C8 as stated: saving and re-loading `emptyPortsDep`
yields a document whose template ports map is nil, not empty-but-present —
not equal to the original in every field. -/
theorem saveLoad_not_field_exact :
    loadDeployment (saveDeployment ⟨[]⟩ emptyPortsDep) "dx" =
      .ok { emptyPortsDep with
              spec := { emptyPortsDep.spec with
                          container := { emptyPortsDep.spec.container with ports := none } } } ∧
    ¬ loadDeployment (saveDeployment ⟨[]⟩ emptyPortsDep) "dx" = .ok emptyPortsDep := by
  decide

/-- Witness for C8's amended round trip at a normalized document. -/
theorem saveDeployment_loadDeployment_roundtrip_witness :
    normDeployment (storedDep 0) = storedDep 0 ∧
    loadDeployment (saveDeployment ⟨[]⟩ (storedDep 0)) (storedDep 0).id = .ok (storedDep 0) :=
  ⟨by decide,
   (saveDeployment_loadDeployment_roundtrip ⟨[]⟩ (storedDep 0)).2 (by decide)⟩

/-! ## Claims C3 and C5: CreateService's validation order and the
cross-deployment scan -/

lemma exists_of_findSome?_eq_some {α β : Type} {l : List α} {f : α → Option β} {b : β} :
    l.findSome? f = some b → ∃ a ∈ l, f a = some b := by
  induction l with
  | nil => intro h; simp at h
  | cons a t ih =>
      intro h
      rw [List.findSome?_cons] at h
      cases hfa : f a with
      | some c =>
          rw [hfa] at h
          exact ⟨a, by simp, by rw [hfa]; exact h⟩
      | none =>
          rw [hfa] at h
          obtain ⟨x, hx, hfx⟩ := ih h
          exact ⟨x, by simp [hx], hfx⟩

/-- An error of the first loop is a range violation or a self-conflict of one
of the spec's own ports. -/
lemma checkPortRangesAndSelf_err : ∀ (ports : List ServicePort) (used : List Int)
    (e : ServiceErr), checkPortRangesAndSelf ports used = some e →
    ∃ q ∈ ports,
      e = .invalidPort q.port ∨ e = .invalidTargetPort q.targetPort ∨ e = .selfConflict q.port
  | [], used, e => by intro h; simp [checkPortRangesAndSelf] at h
  | p :: rest, used, e => by
      intro h
      simp only [checkPortRangesAndSelf] at h
      split at h
      · injection h with h
        exact ⟨p, by simp, Or.inl h.symm⟩
      · split at h
        · injection h with h
          exact ⟨p, by simp, Or.inr (Or.inl h.symm)⟩
        · split at h
          · injection h with h
            exact ⟨p, by simp, Or.inr (Or.inr h.symm)⟩
          · obtain ⟨q, hq, he⟩ := checkPortRangesAndSelf_err rest (p.port :: used) e h
            exact ⟨q, by simp [hq], he⟩

/-- An error of the second loop names an existing service holding one of the
new external ports. -/
lemma checkServiceConflicts_eq_some (svcs : List (String × Service))
    (ports : List ServicePort) (e : ServiceErr)
    (h : checkServiceConflicts svcs ports = some e) :
    ∃ sv ∈ svcs, ∃ np ∈ ports,
      (∃ ep ∈ sv.2.spec.ports, ep.port = np.port) ∧ e = .crossService np.port sv.2.name := by
  obtain ⟨sv, hsv, h2⟩ := exists_of_findSome?_eq_some h
  obtain ⟨ep, hep, h3⟩ := exists_of_findSome?_eq_some h2
  obtain ⟨np, hnp, h4⟩ := exists_of_findSome?_eq_some h3
  by_cases hc : ep.port = np.port
  · rw [if_pos (by simp [hc])] at h4
    injection h4 with h4
    exact ⟨sv, hsv, np, hnp, ⟨ep, hep, hc⟩, h4.symm⟩
  · rw [if_neg (by simp [hc])] at h4
    simp at h4

/-- An error of the third loop names a deployment with a declared (non-nil)
ports template, one of whose replicas binds (a parsable rendering of) one of
the new external ports. -/
lemma checkDeploymentConflicts_eq_some (deps : List (String × Deployment))
    (ports : List ServicePort) (e : ServiceErr)
    (h : checkDeploymentConflicts deps ports = some e) :
    ∃ dp ∈ deps, dp.2.spec.container.ports ≠ none ∧
      ∃ rep ∈ dp.2.replicas, ∃ cp ∈ rep.ports.getD [], ∃ np ∈ ports,
        atoi? cp.2 = some np.port ∧ e = .crossDeployment np.port dp.2.name cp.1 := by
  obtain ⟨dp, hdp, h2⟩ := exists_of_findSome?_eq_some h
  cases hc : dp.2.spec.container.ports with
  | none => rw [hc] at h2; simp at h2
  | some ps =>
      rw [hc] at h2
      obtain ⟨rep, hrep, h3⟩ := exists_of_findSome?_eq_some h2
      obtain ⟨cp, hcp, h4⟩ := exists_of_findSome?_eq_some h3
      cases ha : atoi? cp.2 with
      | none => rw [ha] at h4; simp at h4
      | some hp =>
          rw [ha] at h4
          obtain ⟨np, hnp, h5⟩ := exists_of_findSome?_eq_some h4
          by_cases hpe : hp = np.port
          · rw [if_pos (by simp [hpe])] at h5
            injection h5 with h5
            refine ⟨dp, hdp, by simp [hc], rep, hrep, cp, hcp, np, hnp, ?_, h5.symm⟩
            rw [ha, hpe]
          · rw [if_neg (by simp [hpe])] at h5
            simp at h5

/-- If no replica of any deployment with a declared ports template binds a
parsable host port equal to a new external port, the third loop passes. -/
lemma checkDeploymentConflicts_eq_none_of (deps : List (String × Deployment))
    (ports : List ServicePort)
    (h : ∀ dp ∈ deps, dp.2.spec.container.ports ≠ none →
      ∀ rep ∈ dp.2.replicas, ∀ cp ∈ rep.ports.getD [],
        ∀ hp, atoi? cp.2 = some hp → ∀ np ∈ ports, hp ≠ np.port) :
    checkDeploymentConflicts deps ports = none := by
  unfold checkDeploymentConflicts
  rw [List.findSome?_eq_none_iff]
  intro dp hdp
  cases hc : dp.2.spec.container.ports with
  | none => simp
  | some ps =>
      simp only
      rw [List.findSome?_eq_none_iff]
      intro rep hrep
      rw [List.findSome?_eq_none_iff]
      intro cp hcp
      cases ha : atoi? cp.2 with
      | none => simp
      | some hp =>
          simp only
          rw [List.findSome?_eq_none_iff]
          intro np hnp
          have := h dp hdp (by simp [hc]) rep hrep cp hcp hp ha np hnp
          simp [this]

/-- C3 (amended): `CreateService` short-circuits in the order: (1) name
uniqueness → AlreadyExists; then for each port mapping in declaration order,
interleaved per port: (2) external-port range, target-port range, and
self-conflict against the earlier mappings; then (3) cross-service conflict;
then (4) cross-deployment conflict; (5) when every check passes the service
is registered — `Type` is never validated and an empty port list is
accepted; the `Type` and at-least-one-port checks exist only in the HTTP
transport handler (6). -/
theorem createService_check_order (st : SchedState) (newId : String) (now : Nat)
    (spec : ServiceSpec) :
    ((∃ p ∈ st.services, p.2.name = spec.name) →
      (createService st newId now spec).1 = .error (.alreadyExists spec.name)) ∧
    (nameExistsS st spec.name = false →
      ∀ e, checkPortRangesAndSelf spec.ports [] = some e →
        (createService st newId now spec).1 = .error e ∧
        ∃ q ∈ spec.ports,
          e = .invalidPort q.port ∨ e = .invalidTargetPort q.targetPort ∨
            e = .selfConflict q.port) ∧
    (nameExistsS st spec.name = false → checkPortRangesAndSelf spec.ports [] = none →
      ∀ e, checkServiceConflicts st.services spec.ports = some e →
        (createService st newId now spec).1 = .error e ∧
        ∃ sv ∈ st.services, ∃ np ∈ spec.ports,
          (∃ ep ∈ sv.2.spec.ports, ep.port = np.port) ∧
            e = .crossService np.port sv.2.name) ∧
    (nameExistsS st spec.name = false → checkPortRangesAndSelf spec.ports [] = none →
      checkServiceConflicts st.services spec.ports = none →
      ∀ e, checkDeploymentConflicts st.deployments spec.ports = some e →
        (createService st newId now spec).1 = .error e) ∧
    (nameExistsS st spec.name = false → validatePortConflicts st spec.ports = none →
      (createService st newId now spec).1 =
        .ok { id := newId, name := spec.name, spec := spec, endpoints := [],
              status := "active", created := now }) ∧
    (∀ sp : ServiceSpec,
      (sp.type ≠ "ClusterIP" ∧ sp.type ≠ "NodePort" ∧ sp.type ≠ "LoadBalancer") ∨
        sp.ports = [] →
      (handlerValidateService sp).isSome = true) := by
  refine ⟨?_, ?_, ?_, ?_, ?_, ?_⟩
  · intro hdup
    have h : nameExistsS st spec.name = true := (nameExistsS_iff st spec.name).mpr hdup
    simp [createService, h]
  · intro hfresh e he
    have hv : validatePortConflicts st spec.ports = some e := by
      simp [validatePortConflicts, he]
    exact ⟨by simp [createService, hfresh, hv],
           checkPortRangesAndSelf_err spec.ports [] e he⟩
  · intro hfresh h1 e he
    have hv : validatePortConflicts st spec.ports = some e := by
      simp [validatePortConflicts, h1, he]
    exact ⟨by simp [createService, hfresh, hv],
           checkServiceConflicts_eq_some st.services spec.ports e he⟩
  · intro hfresh h1 h2 e he
    have hv : validatePortConflicts st spec.ports = some e := by
      simp [validatePortConflicts, h1, h2, he]
    simp [createService, hfresh, hv]
  · intro hfresh hv
    simp [createService, hfresh, hv]
  · intro sp h
    simp only [handlerValidateService]
    split
    · simp
    · split
      · simp
      · split
        · simp
        · split
          · simp
          · exfalso
            rename_i hname htype hkind hempty
            rcases h with ⟨hc, hn, hl⟩ | hp
            · apply hkind
              simp [hc, hn, hl]
            · apply hempty
              simp [hp]

/-- A service spec with an unrecognized `Type` and otherwise valid ports. -/
def bogusTypeSpec : ServiceSpec :=
  { name := "svc", type := "Bogus", selector := [], ports := [⟨8080, 80⟩] }

/-- Counterexample to C3 as stated: the `Type` field-validation step it
requires does not exist in `CreateService` — a spec whose `Type` is none of
ClusterIP/NodePort/LoadBalancer is registered successfully instead of being
rejected with a ValidationError. -/
theorem createService_type_not_validated :
    (bogusTypeSpec.type ≠ "ClusterIP" ∧ bogusTypeSpec.type ≠ "NodePort" ∧
      bogusTypeSpec.type ≠ "LoadBalancer") ∧
    (createService emptySt "s1" 3 bogusTypeSpec).1 =
      .ok { id := "s1", name := "svc", spec := bogusTypeSpec, endpoints := [],
            status := "active", created := 3 } := by
  decide

/-- A spec whose ports self-conflict and also collide with `oneEachSt`'s
service `api` (external port 8080). -/
def dupPortsSpec : ServiceSpec :=
  { name := "svc2", type := "ClusterIP", selector := [],
    ports := [⟨8080, 80⟩, ⟨8080, 81⟩] }

/-- Witness for C3: over `oneEachSt`, `dupPortsSpec` fails with the
self-conflict error — never the cross-service one — a duplicate name wins
over everything, a valid spec with a weird type registers, and the transport
handler rejects bad types and empty port lists. -/
theorem createService_check_order_witness :
    ((createService oneEachSt "s9" 4 dupPortsSpec).1 = .error (.selfConflict 8080) ∧
      ∃ q ∈ dupPortsSpec.ports,
        ServiceErr.selfConflict 8080 = .invalidPort q.port ∨
          ServiceErr.selfConflict 8080 = .invalidTargetPort q.targetPort ∨
          ServiceErr.selfConflict 8080 = .selfConflict q.port) ∧
    (createService oneEachSt "s9" 4 { dupPortsSpec with name := "api" }).1 =
      .error (.alreadyExists "api") ∧
    (createService emptySt "s9" 4 bogusTypeSpec).1 =
      .ok { id := "s9", name := "svc", spec := bogusTypeSpec, endpoints := [],
            status := "active", created := 4 } ∧
    (handlerValidateService bogusTypeSpec).isSome = true ∧
    (handlerValidateService { bogusTypeSpec with type := "ClusterIP", ports := [] }).isSome
      = true :=
  ⟨(createService_check_order oneEachSt "s9" 4 dupPortsSpec).2.1 (by decide)
      (.selfConflict 8080) (by decide),
   (createService_check_order oneEachSt "s9" 4 { dupPortsSpec with name := "api" }).1
      (by decide),
   (createService_check_order emptySt "s9" 4 bogusTypeSpec).2.2.2.2.1 (by decide) (by decide),
   (createService_check_order emptySt "s9" 4 bogusTypeSpec).2.2.2.2.2 bogusTypeSpec
      (Or.inl (by decide)),
   (createService_check_order emptySt "s9" 4 bogusTypeSpec).2.2.2.2.2
      { bogusTypeSpec with type := "ClusterIP", ports := [] } (Or.inr (by decide))⟩

/-- C5 (amended): once the name, range/self and cross-service checks pass,
`CreateService` succeeds exactly when no registered deployment *whose spec's
container ports map is non-nil* has a replica binding a host-port string that
parses to one of the new external ports — deployments with a nil template
ports map are skipped entirely, as is every host-port string `strconv.Atoi`
rejects — and any failure is the ValidationError naming the offending
deployment and container port. -/
theorem createService_cross_deployment_scan (st : SchedState) (newId : String)
    (now : Nat) (spec : ServiceSpec)
    (hname : nameExistsS st spec.name = false)
    (h1 : checkPortRangesAndSelf spec.ports [] = none)
    (h2 : checkServiceConflicts st.services spec.ports = none) :
    ((∀ dp ∈ st.deployments, dp.2.spec.container.ports ≠ none →
        ∀ rep ∈ dp.2.replicas, ∀ cp ∈ rep.ports.getD [],
          ∀ hp, atoi? cp.2 = some hp → ∀ np ∈ spec.ports, hp ≠ np.port) →
      (createService st newId now spec).1 =
        .ok { id := newId, name := spec.name, spec := spec, endpoints := [],
              status := "active", created := now }) ∧
    (∀ e, (createService st newId now spec).1 = .error e →
      ∃ dp ∈ st.deployments, dp.2.spec.container.ports ≠ none ∧
        ∃ rep ∈ dp.2.replicas, ∃ cp ∈ rep.ports.getD [], ∃ np ∈ spec.ports,
          atoi? cp.2 = some np.port ∧ e = .crossDeployment np.port dp.2.name cp.1) := by
  constructor
  · intro h
    have h3 : checkDeploymentConflicts st.deployments spec.ports = none :=
      checkDeploymentConflicts_eq_none_of st.deployments spec.ports h
    have hv : validatePortConflicts st spec.ports = none := by
      simp [validatePortConflicts, h1, h2, h3]
    simp [createService, hname, hv]
  · intro e he
    cases h3 : checkDeploymentConflicts st.deployments spec.ports with
    | none =>
        have hv : validatePortConflicts st spec.ports = none := by
          simp [validatePortConflicts, h1, h2, h3]
        rw [show (createService st newId now spec).1 = .ok
            { id := newId, name := spec.name, spec := spec, endpoints := [],
              status := "active", created := now } from by simp [createService, hname, hv]]
          at he
        simp at he
    | some e' =>
        have hv : validatePortConflicts st spec.ports = some e' := by
          simp [validatePortConflicts, h1, h2, h3]
        have he' : e' = e := by
          rw [show (createService st newId now spec).1 = .error e' from by
            simp [createService, hname, hv]] at he
          injection he
        rw [← he']
        exact checkDeploymentConflicts_eq_some st.deployments spec.ports e' h3

/-- A deployment whose spec's template ports map is nil but whose replica
nevertheless binds host port 8080. -/
def nilTemplateDep : Deployment :=
  { id := "d1", name := "dep1",
    spec := { name := "dep1", replicas := 1,
              container := { webContainer with ports := none }, strategy := "" },
    status := "running",
    replicas := [{ id := "r1", name := "dep1-0", image := "nginx", status := "running",
                   ports := some [("80", "8080")], environment := none, labels := none,
                   created := 0, started := none }],
    created := 0 }

/-- A registry holding only `nilTemplateDep`. -/
def nilTemplateSt : SchedState := ⟨[("d1", nilTemplateDep)], []⟩

/-- A service spec requesting external port 8080. -/
def wants8080Spec : ServiceSpec :=
  { name := "svc", type := "ClusterIP", selector := [], ports := [⟨8080, 80⟩] }

/-- Counterexample to C5 as stated: `nilTemplateDep`'s replica binds host
port 8080 as a parsable string, and the new spec wants external port 8080 —
yet `CreateService` succeeds, because the scan skips any deployment whose
spec's container ports map is nil rather than scanning every replica of
every deployment. -/
theorem crossDeployment_scan_skips_nil_template :
    (∃ rep ∈ nilTemplateDep.replicas, ("80", "8080") ∈ rep.ports.getD []) ∧
    atoi? "8080" = some 8080 ∧
    (⟨8080, 80⟩ : ServicePort) ∈ wants8080Spec.ports ∧
    nilTemplateDep.spec.container.ports = none ∧
    (createService nilTemplateSt "s1" 3 wants8080Spec).1 =
      .ok { id := "s1", name := "svc", spec := wants8080Spec, endpoints := [],
            status := "active", created := 3 } := by
  decide

/-- Witness for C5 over `twoRepSt` (whose template ports are declared):
requesting external port 9001 — bound by replica `web-1` — fails with the
error naming `web` and container port `80/tcp`. -/
theorem createService_cross_deployment_scan_witness :
    nameExistsS twoRepSt "svc" = false ∧
    checkPortRangesAndSelf [⟨9001, 80⟩] [] = none ∧
    checkServiceConflicts twoRepSt.services [⟨9001, 80⟩] = none ∧
    (∃ dp ∈ twoRepSt.deployments, dp.2.spec.container.ports ≠ none ∧
      ∃ rep ∈ dp.2.replicas, ∃ cp ∈ rep.ports.getD [],
        ∃ np ∈ ({ name := "svc", type := "ClusterIP", selector := [],
                  ports := [⟨9001, 80⟩] } : ServiceSpec).ports,
          atoi? cp.2 = some np.port ∧
            ServiceErr.crossDeployment np.port dp.2.name cp.1 =
              .crossDeployment np.port dp.2.name cp.1) :=
  ⟨by decide, by decide, by decide, by
    have h := (createService_cross_deployment_scan twoRepSt "s1" 3
      { name := "svc", type := "ClusterIP", selector := [], ports := [⟨9001, 80⟩] }
      (by decide) (by decide) (by decide)).2
      (.crossDeployment 9001 "web" "80/tcp") (by decide)
    obtain ⟨dp, hdp, hports, rep, hrep, cp, hcp, np, hnp, hat, he⟩ := h
    exact ⟨dp, hdp, hports, rep, hrep, cp, hcp, np, hnp, hat, rfl⟩⟩

end Orca
